import Mathlib

/-!
Shallow embedding of the Gemini client service layer of the repository
(the `geminiService` module: `getAIClient`, `generateText`, `generateImage`,
`streamText`, `analyzeImage`).

Modelling conventions:
- A JavaScript value of type `string | undefined` is `Option String`;
  the JS truthiness test `if (x)` / coalescing `x || d` on such a value is
  `jsTruthy` / `jsOrString` (both `undefined` and `""` are falsy).
- A thrown/reject JS `Error` is `JSError` (its `message` field).
- The outcome of the single request each service function issues to the
  third-party SDK is an explicit parameter (an outcome inductive): success
  carries the response data the function reads, failure carries the error
  the SDK rejected with.  A function that catches all errors and returns a
  string has result type `String`; a function that can reject has result
  type `Except JSError String`.
- `String.split(',')` on a single-character separator is `jsSplit`, and
  indexing `[1]` (possibly `undefined`) is `List.get? 1` via `[1]?`.
- `FileReader.readAsDataURL` is the platform API: per its documented
  contract (also stated in the source comment) it produces
  `data:<file.type>;base64,<base64 of the bytes>`.
-/

/-- JS `Error` value: only its `message` is ever inspected. -/
structure JSError where
  message : String
deriving DecidableEq, Repr

/-- JS truthiness of a `string | undefined` value: `undefined` and `""` are falsy. -/
def jsTruthy : Option String → Bool
  | none => false
  | some s => !(s == "")

/-- JS `x || d` for `x : string | undefined`: the fallback `d` when `x` is falsy. -/
def jsOrString : Option String → String → String
  | none, d => d
  | some s, d => if s = "" then d else s

/-- The SDK client object: holds the bearer credential it was constructed with. -/
structure GoogleGenAI where
  apiKey : String
deriving DecidableEq, Repr

/-- Result of `getAIClient`: the constructed client, plus whether the
missing-credential warning was emitted on the way. -/
structure ClientInit where
  client : GoogleGenAI
  warned : Bool
deriving DecidableEq, Repr

/-- `getAIClient`: reads `process.env.API_KEY` (`envApiKey`), warns when it is
falsy, and constructs the client with `apiKey || 'DUMMY_KEY_FOR_DEMO'`. -/
def getAIClient (envApiKey : Option String) : ClientInit :=
  { client := { apiKey := jsOrString envApiKey "DUMMY_KEY_FOR_DEMO" }
    warned := !(jsTruthy envApiKey) }

/-- Outcome of the single `generateContent` request issued by `generateText`:
on success the SDK response exposes `response.text : string | undefined`. -/
inductive TextOutcome where
  | success (text : Option String)
  | failure (error : JSError)
deriving DecidableEq, Repr

/-- `generateText`: one request; on success returns
`response.text || "No response generated."`; the catch block logs and
rethrows the error unchanged. -/
def generateText (envApiKey : Option String) (prompt : String)
    (outcome : TextOutcome) : Except JSError String :=
  let _ai := getAIClient envApiKey
  match outcome with
  | .success t => .ok (jsOrString t "No response generated.")
  | .failure e => .error e

/-- An inline-data content part: `{ inlineData: { mimeType, data } }`. -/
structure InlineData where
  mimeType : String
  data : String
deriving DecidableEq, Repr

/-- A response content ContentPart: may carry `inlineData` and/or `text`. -/
structure ContentPart where
  inlineData : Option InlineData
  text : Option String
deriving DecidableEq, Repr

/-- Response `content` object: `parts` may be absent. -/
structure Content where
  parts : Option (List ContentPart)
deriving DecidableEq, Repr

/-- A response candidate: `content` may be absent. -/
structure Candidate where
  content : Option Content
deriving DecidableEq, Repr

/-- The SDK response object as read by `generateImage`. -/
structure GenerateContentResponse where
  candidates : Option (List Candidate)
deriving DecidableEq, Repr

/-- `response.candidates?.[0]?.content?.parts || []`. -/
def partsOf (response : GenerateContentResponse) : List ContentPart :=
  match response.candidates with
  | none => []
  | some cs =>
    match cs[0]? with
    | none => []
    | some c =>
      match c.content with
      | none => []
      | some ct => ct.parts.getD []

/-- The template literal in `generateImage` (and the format produced by
`FileReader.readAsDataURL`): `data:<mimeType>;base64,<data>`. -/
def encodeDataURI (mimeType data : String) : String :=
  "data:" ++ mimeType ++ ";base64," ++ data

/-- The `for (const part of parts)` loop of `generateImage`: the first part
carrying `inlineData`, if any. -/
def firstInline : List ContentPart → Option InlineData
  | [] => none
  | p :: rest =>
    match p.inlineData with
    | some d => some d
    | none => firstInline rest

/-- Outcome of the single `generateContent` request issued by `generateImage`. -/
inductive ImageOutcome where
  | success (response : GenerateContentResponse)
  | failure (error : JSError)
deriving DecidableEq, Repr

/-- `generateImage`: one request; scans the content parts and returns the
first inline image as a data URI; throws `Error("No image data returned")`
when no part has inline data.  The catch block logs and rethrows, so both
the explicit throw and a transport failure reject unchanged. -/
def generateImage (envApiKey : Option String) (prompt : String)
    (outcome : ImageOutcome) : Except JSError String :=
  let _ai := getAIClient envApiKey
  match outcome with
  | .success r =>
    match firstInline (partsOf r) with
    | some d => .ok (encodeDataURI d.mimeType d.data)
    | none => .error ⟨"No image data returned"⟩
  | .failure e => .error e

/-- Outcome of the streamed request issued by `streamText`: on success, the
list of chunks in arrival order (each chunk exposing `chunk.text :
string | undefined`); on failure, the chunks that arrived before the error,
and the error itself. -/
inductive StreamOutcome where
  | success (chunks : List (Option String))
  | failure (preChunks : List (Option String)) (error : JSError)
deriving DecidableEq, Repr

/-- The `for await` loop body of `streamText`: `if (chunk.text) yield chunk.text`
over the chunks, i.e. only truthy (present and non-empty) texts are yielded. -/
def yieldedFragments (chunks : List (Option String)) : List String :=
  chunks.filterMap fun c =>
    match c with
    | some t => if t = "" then none else some t
    | none => none

/-- The sentinel fragment yielded by the catch block of `streamText`. -/
def errSentinel : String := " [Error generating stream]"

/-- `streamText`: the whole generator body sits in one try/catch, so the
produced (finite) sequence is the yielded fragments of the chunks that
arrived and, when an error occurred anywhere (client construction, opening
the stream, or mid-iteration), one sentinel fragment; the generator then
returns.  The result type `List String` reflects that nothing is thrown
past the sequence boundary. -/
def streamText (envApiKey : Option String) (prompt : String)
    (outcome : StreamOutcome) : List String :=
  let _ai := getAIClient envApiKey
  match outcome with
  | .success cs => yieldedFragments cs
  | .failure pre _e => yieldedFragments pre ++ [errSentinel]

/-- A JS `File`: its MIME `type` and its byte content, represented here by
the base64 encoding of the bytes (the only form the code ever reads). -/
structure JSFile where
  type : String
  contentBase64 : String
deriving DecidableEq, Repr

/-- The platform `FileReader.readAsDataURL` contract: a data URL with the
file MIME type and the base64 of the bytes (the source comment on the
decode line shows the same format). -/
def readAsDataURL (file : JSFile) : String :=
  encodeDataURI file.type file.contentBase64

/-- JS `String.split` with a single-character separator, on the character
list of the string: each occurrence of `sep` starts a new field (the result
is always non-empty; splitting the empty string gives one empty field). -/
def splitChar (sep : Char) : List Char → List (List Char)
  | [] => [[]]
  | c :: rest =>
    let r := splitChar sep rest
    if c = sep then [] :: r else (c :: r.headD []) :: r.tail

/-- JS `s.split(sep)` for a single-character separator. -/
def jsSplit (sep : Char) (s : String) : List String :=
  (splitChar sep s.data).map String.mk

/-- The decode step of `analyzeImage`: `result.split(',')[1]` on the data
URL — `none` models JS `undefined` (no second element). -/
def visionBase64Data (dataURL : String) : Option String :=
  (jsSplit ',' dataURL)[1]?

/-- The `inlineData` object `analyzeImage` sends: `mimeType` is
`imageFile.type` unchanged, `data` is the base64 recovered from the data
URL by `split(',')[1]`. -/
def visionSentInlineData (file : JSFile) : String × Option String :=
  (file.type, visionBase64Data (readAsDataURL file))

/-- Outcome of an `analyzeImage` call: the file read can fail
(`reader.onerror`), the request can fail, or the request succeeds with
`response.text : string | undefined`. -/
inductive VisionOutcome where
  | readError (error : JSError)
  | serviceFailure (error : JSError)
  | serviceSuccess (text : Option String)
deriving DecidableEq, Repr

/-- `analyzeImage`: one multi-part request; on success returns
`response.text || "No analysis generated."`; the catch block converts any
error (file read or service) into the plain string
`"Failed to analyze image."` — the result type `String` reflects that the
call never rejects. -/
def analyzeImage (envApiKey : Option String) (imageFile : JSFile)
    (prompt : String) (outcome : VisionOutcome) : String :=
  let _ai := getAIClient envApiKey
  match outcome with
  | .readError _ => "Failed to analyze image."
  | .serviceFailure _ => "Failed to analyze image."
  | .serviceSuccess t => jsOrString t "No analysis generated."

/-- A character of the base64 alphabet (including padding). -/
def isBase64Char (c : Char) : Bool :=
  c.isAlphanum || c = '+' || c = '/' || c = '='

/-- A string entirely in the base64 alphabet — the form of any base64-encoded
byte content. -/
def IsBase64 (s : String) : Prop :=
  ∀ c ∈ s.data, isBase64Char c = true

instance (s : String) : Decidable (IsBase64 s) := by
  unfold IsBase64; infer_instance

/-! Helper lemmas. -/

/-- Rebuilding a string from its character list is the identity. -/
theorem mk_data_eq (s : String) : String.mk s.data = s := rfl

/-- Splitting a list without the separator gives the single field back. -/
theorem splitChar_not_mem (sep : Char) :
    ∀ l : List Char, sep ∉ l → splitChar sep l = [l]
  | [], _ => rfl
  | c :: rest, h => by
    have hc : ¬(c = sep) := fun hEq => h (hEq ▸ List.mem_cons_self c rest)
    have hr : sep ∉ rest := fun hm => h (List.mem_cons_of_mem c hm)
    simp [splitChar, splitChar_not_mem sep rest hr, hc]

/-- Splitting at the first separator occurrence: the separator-free part
before it becomes the first field. -/
theorem splitChar_append (sep : Char) :
    ∀ l1 l2 : List Char, sep ∉ l1 →
      splitChar sep (l1 ++ sep :: l2) = l1 :: splitChar sep l2
  | [], l2, _ => by simp [splitChar]
  | c :: l1, l2, h => by
    have hc : ¬(c = sep) := fun hEq => h (hEq ▸ List.mem_cons_self c l1)
    have h1 : sep ∉ l1 := fun hm => h (List.mem_cons_of_mem c hm)
    simp [splitChar, splitChar_append sep l1 l2 h1, hc]

/-- Character-list shape of the encoded data URI: everything before the
separating comma, then the comma, then the base64 payload. -/
theorem encode_data (mime data : String) :
    (encodeDataURI mime data).data
      = ("data:" ++ mime ++ ";base64").data ++ ',' :: data.data := by
  have h2 : (";base64,").data = (";base64").data ++ [','] := by decide
  simp [encodeDataURI, String.data_append, h2]

/-- The decode step of `analyzeImage` recovers the payload of an encoded
data URI whenever neither the MIME type nor the payload contains a comma. -/
theorem visionBase64Data_encode (mime data : String)
    (hm : ',' ∉ mime.data) (hd : ',' ∉ data.data) :
    visionBase64Data (encodeDataURI mime data) = some data := by
  have hpre : ',' ∉ ("data:" ++ mime ++ ";base64").data := by
    simp only [String.data_append, List.mem_append]
    push_neg
    exact ⟨⟨by decide, hm⟩, by decide⟩
  unfold visionBase64Data jsSplit
  rw [encode_data, splitChar_append ',' _ _ hpre, splitChar_not_mem ',' _ hd]
  simp [mk_data_eq]

/-- A base64-alphabet string contains no comma. -/
theorem not_comma_of_isBase64 (s : String) (h : IsBase64 s) : ',' ∉ s.data :=
  fun hm => absurd (h ',' hm) (by decide)

/-- The scan of `generateImage` finds nothing when no part has inline data. -/
theorem firstInline_eq_none (l : List ContentPart)
    (h : ∀ p ∈ l, p.inlineData = none) : firstInline l = none := by
  induction l with
  | nil => rfl
  | cons p rest ih =>
    have hp := h p (List.mem_cons_self p rest)
    simp only [firstInline, hp]
    exact ih fun q hq => h q (List.mem_cons_of_mem p hq)

/-- The scan of `generateImage` finds a part when some part has inline data. -/
theorem firstInline_isSome (l : List ContentPart)
    (h : ∃ p ∈ l, p.inlineData.isSome = true) :
    (firstInline l).isSome = true := by
  induction l with
  | nil =>
    rcases h with ⟨p, hp, _⟩
    cases hp
  | cons p rest ih =>
    rcases h with ⟨q, hq, hqs⟩
    cases hpd : p.inlineData with
    | some d => simp [firstInline, hpd]
    | none =>
      simp only [firstInline, hpd]
      rcases List.mem_cons.mp hq with h1 | h2
      · rw [h1] at hqs
        rw [hpd] at hqs
        cases hqs
      · exact ih ⟨q, h2, hqs⟩

/-! Claim theorems. -/

/-- C1: on a transport/service failure during a streaming call, the produced
sequence is the fragments already yielded followed by exactly one sentinel
fragment `" [Error generating stream]"`, which is its last element; the
sequence then terminates (the result is a plain finite list — the
underlying error is never thrown past the sequence boundary). -/
theorem streamText_failure_sentinel (envApiKey : Option String) (prompt : String)
    (preChunks : List (Option String)) (e : JSError) :
    streamText envApiKey prompt (.failure preChunks e)
      = yieldedFragments preChunks ++ [errSentinel] ∧
    (streamText envApiKey prompt (.failure preChunks e)).getLast?
      = some errSentinel := by
  refine ⟨rfl, ?_⟩
  show (yieldedFragments preChunks ++ [errSentinel]).getLast? = some errSentinel
  simp

/-- C2: for every non-empty prompt, a successful text call returns the
service text when it is non-empty, the literal fallback
`"No response generated."` when the service text is empty or absent, and in
every successful case the returned string is non-empty. -/
theorem generateText_success_spec (envApiKey : Option String) (prompt : String)
    (hp : prompt ≠ "") (t : Option String) :
    (∀ s, t = some s → s ≠ "" →
      generateText envApiKey prompt (.success t) = .ok s) ∧
    ((t = none ∨ t = some "") →
      generateText envApiKey prompt (.success t) = .ok "No response generated.") ∧
    (∀ r, generateText envApiKey prompt (.success t) = .ok r → r ≠ "") := by
  refine ⟨?_, ?_, ?_⟩
  · rintro s rfl hs
    simp [generateText, jsOrString, hs]
  · rintro (rfl | rfl) <;> simp [generateText, jsOrString]
  · intro r hr
    cases t with
    | none =>
      simp [generateText, jsOrString] at hr
      subst hr
      decide
    | some s =>
      by_cases hs : s = ""
      · simp [generateText, jsOrString, hs] at hr
        subst hr
        decide
      · simp [generateText, jsOrString, hs] at hr
        subst hr
        exact hs

/-- C2 witness: a concrete non-empty prompt and non-empty service text. -/
theorem generateText_success_spec_witness :
    ("hi" : String) ≠ "" ∧
    generateText none "hi" (.success (some "hello")) = .ok "hello" :=
  ⟨by decide,
   (generateText_success_spec none "hi" (by decide) (some "hello")).1 "hello" rfl
     (by decide)⟩

/-- C3: on a transport/service failure, the (non-streaming) text call
rejects with the underlying error itself, unmodified, after the single
attempt the model encodes. -/
theorem generateText_failure_rethrow (envApiKey : Option String)
    (prompt : String) (e : JSError) :
    generateText envApiKey prompt (.failure e) = .error e := rfl

/-- C4: when no content part of the response carries inline image data, the
image call rejects with an error whose message is exactly
`"No image data returned"`. -/
theorem generateImage_noImageData (envApiKey : Option String) (prompt : String)
    (r : GenerateContentResponse) (h : ∀ p ∈ partsOf r, p.inlineData = none) :
    generateImage envApiKey prompt (.success r) = .error ⟨"No image data returned"⟩ := by
  have hn := firstInline_eq_none (partsOf r) h
  simp [generateImage, hn]

/-- C4 witness: a response with one part that has text but no inline data. -/
theorem generateImage_noImageData_witness :
    (∀ p ∈ partsOf ⟨some [⟨some ⟨some [⟨none, some "t"⟩]⟩⟩]⟩, p.inlineData = none) ∧
    generateImage none "p" (.success ⟨some [⟨some ⟨some [⟨none, some "t"⟩]⟩⟩]⟩)
      = .error ⟨"No image data returned"⟩ :=
  ⟨by decide, generateImage_noImageData none "p" _ (by decide)⟩

/-- C5: on any failure (file read or service), the vision call resolves with
the literal string `"Failed to analyze image."`; the result type `String`
(not `Except`) reflects that the underlying error is never propagated. -/
theorem analyzeImage_failure_fallback (envApiKey : Option String)
    (imageFile : JSFile) (prompt : String) (e : JSError) :
    analyzeImage envApiKey imageFile prompt (.readError e)
      = "Failed to analyze image." ∧
    analyzeImage envApiKey imageFile prompt (.serviceFailure e)
      = "Failed to analyze image." :=
  ⟨rfl, rfl⟩

/-- C6: when at least one content part carries inline image data, the image
call returns the first such part encoded as
`data:<reported MIME type>;base64,<base64 data>`. -/
theorem generateImage_firstInlineData (envApiKey : Option String) (prompt : String)
    (r : GenerateContentResponse)
    (h : ∃ p ∈ partsOf r, p.inlineData.isSome = true) :
    ∃ d, firstInline (partsOf r) = some d ∧
      generateImage envApiKey prompt (.success r)
        = .ok ("data:" ++ d.mimeType ++ ";base64," ++ d.data) := by
  have hs := firstInline_isSome (partsOf r) h
  cases hd : firstInline (partsOf r) with
  | none => rw [hd] at hs; cases hs
  | some d => exact ⟨d, rfl, by simp [generateImage, hd, encodeDataURI]⟩

/-- C6 witness: a response whose single part carries inline image data. -/
theorem generateImage_firstInlineData_witness :
    ∃ d, firstInline
        (partsOf ⟨some [⟨some ⟨some [⟨some ⟨"image/png", "QUJD"⟩, none⟩]⟩⟩]⟩)
        = some d ∧
      generateImage none "p"
          (.success ⟨some [⟨some ⟨some [⟨some ⟨"image/png", "QUJD"⟩, none⟩]⟩⟩]⟩)
        = .ok ("data:" ++ d.mimeType ++ ";base64," ++ d.data) :=
  generateImage_firstInlineData none "p" _ (by decide)

/-- C7: with the credential absent, the client is constructed with the
placeholder `"DUMMY_KEY_FOR_DEMO"` and the warning is emitted, and every
service call behaves exactly as it would with any credential — a missing
credential never blocks or fails a request. -/
theorem getAIClient_missingCredential :
    (getAIClient none).warned = true ∧
    (getAIClient none).client.apiKey = "DUMMY_KEY_FOR_DEMO" ∧
    (∀ envApiKey prompt outcome,
      generateText envApiKey prompt outcome = generateText none prompt outcome) ∧
    (∀ envApiKey prompt outcome,
      generateImage envApiKey prompt outcome = generateImage none prompt outcome) ∧
    (∀ envApiKey prompt outcome,
      streamText envApiKey prompt outcome = streamText none prompt outcome) ∧
    (∀ envApiKey imageFile prompt outcome,
      analyzeImage envApiKey imageFile prompt outcome
        = analyzeImage none imageFile prompt outcome) :=
  ⟨rfl, rfl, fun _ _ _ => rfl, fun _ _ _ => rfl, fun _ _ _ => rfl,
   fun _ _ _ _ => rfl⟩

/-- C9: on the success path every fragment the stream yields is non-empty:
chunks whose text is absent or empty are skipped and produce no fragment. -/
theorem streamText_success_nonempty (envApiKey : Option String) (prompt : String)
    (chunks : List (Option String)) :
    (∀ frag ∈ streamText envApiKey prompt (.success chunks), frag ≠ "") ∧
    streamText envApiKey prompt (.success (none :: chunks))
      = streamText envApiKey prompt (.success chunks) ∧
    streamText envApiKey prompt (.success (some "" :: chunks))
      = streamText envApiKey prompt (.success chunks) := by
  refine ⟨?_, rfl, rfl⟩
  intro frag hf
  simp only [streamText, yieldedFragments, List.mem_filterMap] at hf
  rcases hf with ⟨c, _, hc⟩
  cases c with
  | none => cases hc
  | some t =>
    by_cases ht : t = ""
    · simp [ht] at hc
    · simp [ht] at hc
      exact hc ▸ ht

/-- C9 witness: a concrete mixed chunk list whose yielded fragment is the
non-empty text. -/
theorem streamText_success_nonempty_witness :
    ("hi" ∈ streamText none "p" (.success [some "hi", none, some ""])) ∧
    ("hi" : String) ≠ "" :=
  ⟨by decide,
   (streamText_success_nonempty none "p" [some "hi", none, some ""]).1 "hi"
     (by decide)⟩

/-- C10: when the vision service succeeds but returns empty or absent text,
the call resolves with the fallback `"No analysis generated."`, which is
distinct from the failure fallback `"Failed to analyze image."`. -/
theorem analyzeImage_emptySuccess (envApiKey : Option String)
    (imageFile : JSFile) (prompt : String) (t : Option String)
    (h : t = none ∨ t = some "") :
    analyzeImage envApiKey imageFile prompt (.serviceSuccess t)
      = "No analysis generated." ∧
    ("No analysis generated." : String) ≠ "Failed to analyze image." := by
  refine ⟨?_, by decide⟩
  rcases h with rfl | rfl <;> simp [analyzeImage, jsOrString]

/-- C10 witness: a successful vision call with absent text. -/
theorem analyzeImage_emptySuccess_witness :
    analyzeImage none ⟨"image/png", "QUJD"⟩ "p" (.serviceSuccess none)
      = "No analysis generated." ∧
    ("No analysis generated." : String) ≠ "Failed to analyze image." :=
  analyzeImage_emptySuccess none ⟨"image/png", "QUJD"⟩ "p" none (Or.inl rfl)

/-- C8 counterexample: for a MIME type containing a comma, decoding the
encoded data URI with `split(',')[1]` does not return the original base64
payload, so the round trip fails as universally stated. -/
theorem dataURI_roundTrip_cex :
    visionSentInlineData ⟨"image/png,x", "QUJD"⟩ ≠ ("image/png,x", some "QUJD") := by
  decide

/-- C8 (amended): for every file whose MIME type contains no comma and whose
content is a base64-alphabet string (as any base64 encoding of bytes is),
encoding to a data URI and decoding back with `split(',')[1]` recovers the
original base64 content, and the MIME type is carried unchanged. -/
theorem dataURI_roundTrip (file : JSFile)
    (hm : ',' ∉ file.type.data) (hb : IsBase64 file.contentBase64) :
    visionSentInlineData file = (file.type, some file.contentBase64) := by
  have hd : ',' ∉ file.contentBase64.data := not_comma_of_isBase64 _ hb
  simp [visionSentInlineData, readAsDataURL,
    visionBase64Data_encode file.type file.contentBase64 hm hd]

/-- C8 witness: a concrete PNG-typed file with base64 content. -/
theorem dataURI_roundTrip_witness :
    (',' ∉ ("image/png" : String).data) ∧ IsBase64 "iVBORw0KGgo=" ∧
    visionSentInlineData ⟨"image/png", "iVBORw0KGgo="⟩
      = ("image/png", some "iVBORw0KGgo=") :=
  ⟨by decide, by decide,
   dataURI_roundTrip ⟨"image/png", "iVBORw0KGgo="⟩ (by decide) (by decide)⟩
